import Mathlib

set_option maxHeartbeats 1000000

/-!
Shallow embedding of the crowdfunding contract in `src/contract/src/lib.rs`.

The contract keeps an owner, an ordered list of crowdfund campaigns and a flat
donation history.  Rust `u128` arithmetic is embedded as natural-number
arithmetic reduced modulo `2 ^ 128` (the default release-profile wrapping
semantics; the crate's build profile is not among the sources).  A Rust
`unwrap` on a missing campaign, which aborts the whole call, is embedded as an
`Option`-returning function yielding `none`; the surrounding host rolls the
state back on such an abort, which the `step` function models by keeping the
previous state.

The files `models.rs` and `utils.rs` are referenced by `lib.rs` but absent
from the sources; the definitions marked "Modelled from the spec" reconstruct
the missing items from the specification's words.
-/

/-- Account identifiers: the `AccountId` alias (from the absent `utils.rs`) is a string. -/
abbrev AccountId := String

/-- Modelled from the spec: `utils.rs` is absent from the sources.  The spec fixes the
unit conversion factor ("one native currency unit in settlement units") at `10 ^ 24`,
the scenario in its section 8 using exactly this factor. -/
def ONE_NEAR : Nat := 10 ^ 24

/-- Modulus of the Rust `u128` type used for amounts. -/
def U128MOD : Nat := 2 ^ 128

/-- Two's-complement value of `n as i32` for a Rust `usize` value `n`
(the cast in `let id = self.crowdfunds.len() as i32`). -/
def i32cast (n : Nat) : Int :=
  if n % 2 ^ 32 < 2 ^ 31 then ((n % 2 ^ 32 : Nat) : Int)
  else ((n % 2 ^ 32 : Nat) : Int) - 2 ^ 32

/-- Outcome of a donation's external transfer, as described by the spec's data model. -/
inductive Outcome where
  | Pending
  | Settled
  | Failed
deriving DecidableEq

/-- Modelled from the spec: `models.rs` is absent from the sources.  Per the spec a
Campaign carries an identifier, title, target amount, description, a vote tally, the
ordered voter sequence and the accumulated donation total. -/
structure Crowdfund where
  id : Int
  title : String
  donate : Nat
  description : String
  total_votes : Nat
  votes : List AccountId
  total_donations : Nat
deriving DecidableEq

/-- Modelled from the spec: `models.rs` is absent from the sources.  Per the spec a
newly created Campaign has zero votes and zero donations. -/
def Crowdfund.new (id : Int) (title : String) (donate : Nat) (description : String) :
    Crowdfund :=
  ⟨id, title, donate, description, 0, [], 0⟩

/-- Modelled from the spec: `models.rs` is absent from the sources.  Per the spec a
Donation records the donor identity and an outcome, created `Pending`.  The call site
`Donation::new()` in `lib.rs` passes no arguments, so only data available from the
environment (the predecessor account) can be recorded, and nothing in `lib.rs` ever
updates the record afterwards. -/
structure Donation where
  donor : AccountId
  outcome : Outcome
deriving DecidableEq

/-- Modelled from the spec: construction of a Donation record, outcome `Pending`. -/
def Donation.new (predecessor : AccountId) : Donation :=
  ⟨predecessor, Outcome.Pending⟩

/-- The external transfer issued by `add_donation`:
`Promise::new(env::predecessor_account_id()).transfer(transfer_amount)`. -/
structure TransferCall where
  recipient : AccountId
  amount : Nat
deriving DecidableEq

/-- The root state `Contract { owner, crowdfunds, donations }`. -/
structure Contract where
  owner : AccountId
  crowdfunds : List Crowdfund
  donations : List Donation
deriving DecidableEq

/-- Embeds `Contract::init`. -/
def Contract.init (owner : AccountId) : Contract :=
  ⟨owner, [], []⟩

/-- Embeds `add_crowdfund`: allocates `id = crowdfunds.len() as i32`, appends
`Crowdfund::new(id, title, donate, description)` and returns the Rust unit value. -/
def Contract.add_crowdfund (c : Contract) (title : String) (donate : Nat)
    (description : String) : Contract × Unit :=
  let id := i32cast c.crowdfunds.length
  ({ c with crowdfunds := c.crowdfunds ++ [Crowdfund.new id title donate description] }, ())

/-- Embeds `add_vote`: `get_mut(id).unwrap()` (`none` = panic/abort), then
`total_votes += 1` and `votes.push(voter)` where the voter is the predecessor account. -/
def Contract.add_vote (c : Contract) (predecessor : AccountId) (id : Nat) :
    Option Contract :=
  match c.crowdfunds[id]? with
  | none => none
  | some cf =>
      let cf2 :=
        { cf with total_votes := cf.total_votes + 1, votes := cf.votes ++ [predecessor] }
      some { c with crowdfunds := c.crowdfunds.set id cf2 }

/-- Embeds `add_donation`: computes `transfer_amount = ONE_NEAR * amount` (u128),
`get_mut(id).unwrap()` (`none` = panic/abort), eagerly adds `transfer_amount` to the
campaign's `total_donations`, pushes `Donation::new()`, and issues the transfer back
to the predecessor account.  The promise's eventual result is never inspected, so the
returned state does not depend on the transfer's outcome. -/
def Contract.add_donation (c : Contract) (predecessor : AccountId) (id : Nat)
    (amount : Nat) : Option (Contract × TransferCall) :=
  let transfer_amount := ONE_NEAR * amount % U128MOD
  match c.crowdfunds[id]? with
  | none => none
  | some cf =>
      let cf2 :=
        { cf with total_donations := (cf.total_donations + transfer_amount) % U128MOD }
      some ({ c with
                crowdfunds := c.crowdfunds.set id cf2,
                donations := c.donations ++ [Donation.new predecessor] },
             ⟨predecessor, transfer_amount⟩)

/-- Embeds `crowdfund_count`. -/
def Contract.crowdfund_count (c : Contract) : Nat :=
  c.crowdfunds.length

/-- Embeds `get_total_donations`: `get_mut(id).unwrap()` (`none` = panic/abort),
then reads `total_donations`. -/
def Contract.get_total_donations (c : Contract) (id : Nat) : Option Nat :=
  c.crowdfunds[id]?.map Crowdfund.total_donations

/-- Embeds `list_crowdfunds`: returns a copy of the campaign list. -/
def Contract.list_crowdfunds (c : Contract) : List Crowdfund :=
  c.crowdfunds

/-- One public operation of the contract together with its environment
(the predecessor account of the call). -/
inductive Op where
  | vote (predecessor : AccountId) (id : Nat)
  | donate (predecessor : AccountId) (id : Nat) (amount : Nat)
  | crowdfund (title : String) (donate : Nat) (description : String)
  | listAll
  | countAll
  | totals (id : Nat)
deriving DecidableEq

/-- Effect of one invocation on the persisted state.  A panicking call (invalid id)
is rolled back by the host, leaving the previous state. -/
def step (c : Contract) (op : Op) : Contract :=
  match op with
  | Op.vote p id => (c.add_vote p id).getD c
  | Op.donate p id a =>
      match c.add_donation p id a with
      | none => c
      | some (c', _) => c'
  | Op.crowdfund t d s => (c.add_crowdfund t d s).1
  | Op.listAll => c
  | Op.countAll => c
  | Op.totals _ => c

/-- State after a sequence of invocations. -/
def run (c : Contract) (ops : List Op) : Contract :=
  ops.foldl step c

/-- The spec's vote invariant: every campaign's tally equals its voter-list length. -/
def votesInv (c : Contract) : Prop :=
  ∀ cf ∈ c.crowdfunds, cf.total_votes = cf.votes.length

/-- Recognizes the campaign-creation operation. -/
def Op.isCrowdfund : Op → Bool
  | Op.crowdfund _ _ _ => true
  | _ => false

/-- Number of `add_donation` invocations in a trace that run to completion
(do not panic) starting from state `c`. -/
def completedDonates : Contract → List Op → Nat
  | _, [] => 0
  | c, op :: ops =>
      (match op with
       | Op.donate p id a => if (c.add_donation p id a).isSome then 1 else 0
       | _ => 0) + completedDonates (step c op) ops

/-- A one-campaign sample state used by concrete witnesses. -/
def sampleC : Contract :=
  ((Contract.init "alice").add_crowdfund "t" 30 "d").1

theorem votesInv_step (c : Contract) (op : Op) (h : votesInv c) : votesInv (step c op) := by
  cases op with
  | vote p id =>
      show votesInv ((c.add_vote p id).getD c)
      cases hg : c.crowdfunds[id]? with
      | none => simpa [Contract.add_vote, hg] using h
      | some cf =>
          have hcf : cf.total_votes = cf.votes.length := h cf (List.getElem?_mem hg)
          simp only [Contract.add_vote, hg, Option.getD_some]
          unfold votesInv
          intro x hx
          rcases List.mem_or_eq_of_mem_set hx with hmem | rfl
          · exact h x hmem
          · simp [hcf]
  | donate p id a =>
      show votesInv (match c.add_donation p id a with | none => c | some (c', _) => c')
      cases hg : c.crowdfunds[id]? with
      | none => simpa [Contract.add_donation, hg] using h
      | some cf =>
          simp only [Contract.add_donation, hg]
          unfold votesInv
          intro x hx
          rcases List.mem_or_eq_of_mem_set hx with hmem | rfl
          · exact h x hmem
          · exact h cf (List.getElem?_mem hg)
  | crowdfund t d s =>
      unfold votesInv step Contract.add_crowdfund
      intro x hx
      rcases List.mem_append.mp hx with hmem | hmem
      · exact h x hmem
      · rw [List.mem_singleton.mp hmem]; rfl
  | listAll => exact h
  | countAll => exact h
  | totals id => exact h

theorem votesInv_run (ops : List Op) (c : Contract) (h : votesInv c) :
    votesInv (run c ops) := by
  induction ops generalizing c with
  | nil => exact h
  | cons op ops ih => exact ih (step c op) (votesInv_step c op h)

theorem step_crowdfunds_length (c : Contract) (op : Op) :
    (step c op).crowdfunds.length =
      c.crowdfunds.length + (if op.isCrowdfund then 1 else 0) := by
  cases op with
  | vote p id =>
      cases hg : c.crowdfunds[id]? <;>
        simp [step, Contract.add_vote, hg, Op.isCrowdfund]
  | donate p id a =>
      cases hg : c.crowdfunds[id]? <;>
        simp [step, Contract.add_donation, hg, Op.isCrowdfund]
  | crowdfund t d s => simp [step, Contract.add_crowdfund, Op.isCrowdfund]
  | listAll => simp [step, Op.isCrowdfund]
  | countAll => simp [step, Op.isCrowdfund]
  | totals id => simp [step, Op.isCrowdfund]

theorem run_crowdfunds_length (ops : List Op) (c : Contract) :
    (run c ops).crowdfunds.length = c.crowdfunds.length + ops.countP Op.isCrowdfund := by
  induction ops generalizing c with
  | nil => simp [run]
  | cons op ops ih =>
      show (run (step c op) ops).crowdfunds.length = _
      rw [ih (step c op), step_crowdfunds_length, List.countP_cons]
      cases h : op.isCrowdfund
      · simp [h]
      · simp [h]
        omega

theorem step_donations_length (c : Contract) (op : Op) :
    (step c op).donations.length =
      c.donations.length +
        (match op with
         | Op.donate p id a => if (c.add_donation p id a).isSome then 1 else 0
         | _ => 0) := by
  cases op with
  | vote p id =>
      cases hg : c.crowdfunds[id]? <;>
        simp [step, Contract.add_vote, hg]
  | donate p id a =>
      cases hg : c.crowdfunds[id]? <;>
        simp [step, Contract.add_donation, hg]
  | crowdfund t d s => simp [step, Contract.add_crowdfund]
  | listAll => simp [step]
  | countAll => simp [step]
  | totals id => simp [step]

theorem run_donations_length (ops : List Op) (c : Contract) :
    (run c ops).donations.length = c.donations.length + completedDonates c ops := by
  induction ops generalizing c with
  | nil => simp [run, completedDonates]
  | cons op ops ih =>
      show (run (step c op) ops).donations.length = _
      rw [ih (step c op), step_donations_length]
      simp only [completedDonates]
      omega

/-- C1: the spec requires that a campaign's total_donations not be incremented until
the external transfer is confirmed successful, and that a failed transfer leave the
total unchanged with the Donation's outcome Failed.  The code violates this: evaluated
on a valid campaign, `add_donation` has already added the settlement amount to
total_donations when it issues the transfer, the returned state does not depend on the
transfer's outcome (`add_donation` never inspects the promise result), and the
recorded Donation's outcome is Pending, never set to Failed. -/
theorem claim_C1_code_eval :
    (sampleC.add_donation "bob" 0 1).map
        (fun r => (r.1.get_total_donations 0, r.1.donations.map Donation.outcome)) =
      some (some (10 ^ 24), [Outcome.Pending]) := by
  rfl

/-- C2: for an out-of-range campaign id the code does not return a NotFound error; it
panics on `unwrap` (embedded as `none`), an unrecoverable abort.  The host rolls the
state back, modelled by `step` keeping the previous state. -/
theorem claim_C2_code_eval :
    (Contract.init "alice").add_vote "bob" 0 = none ∧
    (Contract.init "alice").add_donation "bob" 0 1 = none ∧
    (Contract.init "alice").get_total_donations 0 = none ∧
    step (Contract.init "alice") (Op.vote "bob" 0) = Contract.init "alice" ∧
    step (Contract.init "alice") (Op.donate "bob" 0 1) = Contract.init "alice" :=
  ⟨rfl, rfl, rfl, rfl, rfl⟩

/-- C3: for every valid campaign id, add_vote returns in one step the state whose
campaign has the voter appended and the tally incremented by exactly one; the
invariant total_votes = length votes holds of the initial state, is preserved by
every operation, and therefore holds after any sequence of operations. -/
theorem claim_C3_add_vote_tally :
    (∀ (c : Contract) (voter : AccountId) (id : Nat) (cf : Crowdfund),
        c.crowdfunds[id]? = some cf →
        c.add_vote voter id = some { c with crowdfunds := c.crowdfunds.set id (⟨cf.id,
          cf.title, cf.donate, cf.description, cf.total_votes + 1, cf.votes ++ [voter],
          cf.total_donations⟩ : Crowdfund) }) ∧
    (∀ owner : AccountId, votesInv (Contract.init owner)) ∧
    (∀ (c : Contract) (op : Op), votesInv c → votesInv (step c op)) ∧
    (∀ (owner : AccountId) (ops : List Op), votesInv (run (Contract.init owner) ops)) := by
  refine ⟨?_, ?_, votesInv_step, ?_⟩
  · intro c voter id cf hg
    simp [Contract.add_vote, hg]
  · intro owner cf hm
    simp [Contract.init] at hm
  · intro owner ops
    exact votesInv_run ops _ (by intro cf hm; simp [Contract.init] at hm)

/-- Witness for C3 at a concrete one-campaign state. -/
theorem claim_C3_add_vote_tally_witness :
    sampleC.add_vote "bob" 0 =
      some { sampleC with crowdfunds := sampleC.crowdfunds.set 0 (⟨0, "t", 30, "d", 1,
        ["bob"], 0⟩ : Crowdfund) } :=
  claim_C3_add_vote_tally.1 sampleC "bob" 0 ⟨0, "t", 30, "d", 0, [], 0⟩ (by rfl)

/-- C4: the spec requires every increase of total_donations to be the settlement
amount of a donation recorded Settled.  Evaluated on a valid campaign, the total
increases from 0 to the settlement amount while the only donation on record has
outcome Pending (the code never records Settled), refuting the claim. -/
theorem claim_C4_code_eval :
    sampleC.get_total_donations 0 = some 0 ∧
    (sampleC.add_donation "carol" 0 2).map
        (fun r => (r.1.get_total_donations 0, r.1.donations.map Donation.outcome)) =
      some (some (2 * 10 ^ 24), [Outcome.Pending]) :=
  ⟨rfl, rfl⟩

/-- C5: the spec requires add_donation to fail with ArithmeticOverflow when
`amount * ONE_NEAR` overflows u128.  The code performs the unchecked u128
multiplication: at the smallest overflowing amount the call completes, commits the
wrapped product to total_donations and transfers the wrapped amount; no
ArithmeticOverflow failure exists anywhere in the code. -/
theorem claim_C5_code_eval :
    U128MOD ≤ ONE_NEAR * 340282366920939 ∧
    (sampleC.add_donation "bob" 0 340282366920939).map
        (fun r => (r.1.get_total_donations 0, r.2.amount)) =
      some (some 536536625392568231788544, 536536625392568231788544) :=
  ⟨by decide, rfl⟩

/-- C6 counterexample: two consecutive add_crowdfund calls allocate the distinct
identifiers 0 and 1, yet both calls return the same value (the Rust unit), so the
call does not return the allocated identifier to the caller. -/
theorem claim_C6_counterexample :
    ((Contract.init "alice").add_crowdfund "a" 1 "b").1.crowdfunds.map Crowdfund.id
      = [0] ∧
    (((Contract.init "alice").add_crowdfund "a" 1 "b").1.add_crowdfund
        "c" 2 "d").1.crowdfunds.map Crowdfund.id = [0, 1] ∧
    ((Contract.init "alice").add_crowdfund "a" 1 "b").2 =
      (((Contract.init "alice").add_crowdfund "a" 1 "b").1.add_crowdfund "c" 2 "d").2 :=
  ⟨rfl, rfl, rfl⟩

/-- C6 amended: add_crowdfund allocates the current collection length as the new
campaign's identifier (the `as i32` cast is the identity below `2 ^ 31`) and appends
a campaign with zero votes and zero donations, but it returns the unit value, not the
identifier. -/
theorem claim_C6_amended_alloc (c : Contract) (title : String) (donate : Nat)
    (description : String) (h : c.crowdfunds.length < 2 ^ 31) :
    (c.add_crowdfund title donate description).1.crowdfunds =
      c.crowdfunds ++ [(⟨(c.crowdfunds.length : Int), title, donate, description,
        0, [], 0⟩ : Crowdfund)] ∧
    (c.add_crowdfund title donate description).1.crowdfund_count =
      c.crowdfund_count + 1 ∧
    (c.add_crowdfund title donate description).2 = () := by
  have hmod : c.crowdfunds.length % 2 ^ 32 = c.crowdfunds.length :=
    Nat.mod_eq_of_lt (lt_trans h (by norm_num))
  refine ⟨?_, ?_, rfl⟩
  · unfold Contract.add_crowdfund Crowdfund.new i32cast
    rw [hmod, if_pos h]
  · simp [Contract.add_crowdfund, Contract.crowdfund_count]

/-- Witness for the amended C6 on the empty initial state. -/
theorem claim_C6_amended_alloc_witness :
    ((Contract.init "x").add_crowdfund "t" 5 "d").1.crowdfunds =
      (Contract.init "x").crowdfunds ++
        [(⟨((Contract.init "x").crowdfunds.length : Int), "t", 5, "d", 0, [], 0⟩ :
          Crowdfund)] ∧
    ((Contract.init "x").add_crowdfund "t" 5 "d").1.crowdfund_count =
      (Contract.init "x").crowdfund_count + 1 ∧
    ((Contract.init "x").add_crowdfund "t" 5 "d").2 = () :=
  claim_C6_amended_alloc (Contract.init "x") "t" 5 "d" (by decide)

/-- C7: the spec requires add_crowdfund to fail with InvalidInput on an empty title
or description.  The code performs no validation: with both empty it appends the
campaign and the count grows, refuting the claim. -/
theorem claim_C7_code_eval :
    ((Contract.init "alice").add_crowdfund "" 30 "").1.crowdfunds =
      [(⟨0, "", 30, "", 0, [], 0⟩ : Crowdfund)] ∧
    ((Contract.init "alice").add_crowdfund "" 30 "").1.crowdfund_count = 1 :=
  ⟨rfl, rfl⟩

/-- C8: after any sequence of operations the campaign count equals the number of
add_crowdfund calls in the trace (every add_crowdfund call succeeds). -/
theorem claim_C8_count (owner : AccountId) (ops : List Op) :
    (run (Contract.init owner) ops).crowdfund_count = ops.countP Op.isCrowdfund := by
  have h := run_crowdfunds_length ops (Contract.init owner)
  simpa [Contract.crowdfund_count, Contract.init] using h

/-- C9: every completed add_donation appends exactly one Donation record to the
donation history (for any amount, zero included); add_vote and add_crowdfund leave
the history unchanged (and the read-only operations touch nothing); hence over any
trace the history's length equals the number of completed add_donation calls. -/
theorem claim_C9_donation_history :
    (∀ (c : Contract) (p : AccountId) (id amount : Nat) (c' : Contract)
        (tc : TransferCall), c.add_donation p id amount = some (c', tc) →
        c'.donations = c.donations ++ [Donation.new p]) ∧
    (∀ (c : Contract) (p : AccountId) (id : Nat) (c' : Contract),
        c.add_vote p id = some c' → c'.donations = c.donations) ∧
    (∀ (c : Contract) (t : String) (d : Nat) (s : String),
        ((c.add_crowdfund t d s).1).donations = c.donations) ∧
    (∀ (c : Contract) (ops : List Op),
        (run c ops).donations.length = c.donations.length + completedDonates c ops) := by
  refine ⟨?_, ?_, ?_, ?_⟩
  · intro c p id amount c' tc h
    cases hg : c.crowdfunds[id]? <;> simp [Contract.add_donation, hg] at h
    rw [← h.1]
  · intro c p id c' h
    cases hg : c.crowdfunds[id]? <;> simp [Contract.add_vote, hg] at h
    rw [← h]
  · intro c t d s
    rfl
  · intro c ops
    exact run_donations_length ops c

/-- Witness for C9 at a concrete one-campaign state. -/
theorem claim_C9_donation_history_witness :
    (⟨"alice", [⟨0, "t", 30, "d", 0, [], 10 ^ 24⟩],
        [⟨"bob", Outcome.Pending⟩]⟩ : Contract).donations =
      sampleC.donations ++ [Donation.new "bob"] :=
  claim_C9_donation_history.1 sampleC "bob" 0 1
    ⟨"alice", [⟨0, "t", 30, "d", 0, [], 10 ^ 24⟩], [⟨"bob", Outcome.Pending⟩]⟩
    ⟨"bob", 10 ^ 24⟩ (by rfl)

/-- C10: every completed add_donation issues its external transfer to the
predecessor account — the calling donor's own identity — and the transferred u128
amount is ONE_NEAR * amount (reduced modulo 2 ^ 128, the identity whenever the
product does not overflow). -/
theorem claim_C10_transfer_target (c : Contract) (p : AccountId) (id amount : Nat)
    (c' : Contract) (tc : TransferCall)
    (h : c.add_donation p id amount = some (c', tc)) :
    tc.recipient = p ∧ tc.amount = ONE_NEAR * amount % U128MOD ∧
    (ONE_NEAR * amount < U128MOD → tc.amount = ONE_NEAR * amount) := by
  cases hg : c.crowdfunds[id]? <;> simp [Contract.add_donation, hg] at h
  rw [← h.2]
  exact ⟨rfl, rfl, fun hlt => Nat.mod_eq_of_lt hlt⟩

/-- Witness for C10 at a concrete one-campaign state. -/
theorem claim_C10_transfer_target_witness :
    (⟨"bob", 10 ^ 24⟩ : TransferCall).recipient = "bob" ∧
    (⟨"bob", 10 ^ 24⟩ : TransferCall).amount = ONE_NEAR * 1 % U128MOD :=
  ⟨(claim_C10_transfer_target sampleC "bob" 0 1
      ⟨"alice", [⟨0, "t", 30, "d", 0, [], 10 ^ 24⟩], [⟨"bob", Outcome.Pending⟩]⟩
      ⟨"bob", 10 ^ 24⟩ (by rfl)).1,
   (claim_C10_transfer_target sampleC "bob" 0 1
      ⟨"alice", [⟨0, "t", 30, "d", 0, [], 10 ^ 24⟩], [⟨"bob", Outcome.Pending⟩]⟩
      ⟨"bob", 10 ^ 24⟩ (by rfl)).2.1⟩
